import Mathlib

/-!
Shallow embedding of the `librelay-node` message receiver
(`src/message_receiver.js`) and async event target (`src/event_target.js`).

JavaScript values are embedded as follows: byte buffers are `List Nat`
(each entry is one byte), `null`/`undefined` fields are `Option`, thrown
exceptions are modelled by an `Option JsError` (or `Except JsError`) result,
and the observable effects of a handler (events dispatched on the receiver,
sessions closed through the session store) are returned explicitly as traces.
External collaborators (the session store, the attachment service, the
websocket frame cipher and protobuf codec) are parameters of the embedded
functions, as the spec treats them as external interfaces.
-/

namespace Librelay

/-- JavaScript errors thrown by the receiver and its collaborators, tagged by
their class / `name` as the source code distinguishes them
(`e.name === 'MessageCounterError'`, `instanceof errors.IncomingIdentityKeyError`,
`instanceof errors.TextSecureError`). -/
inductive JsError where
  | error (msg : String)
  | typeError (msg : String)
  | referenceError (msg : String)
  | messageCounterError
  | incomingIdentityKeyError (addr : String) (identityKey : List Nat)
  | textSecureError (msg : String)
  deriving DecidableEq, Repr

/-- The `name` property of an error, as consulted by
`handleEnvelope` (`e.name === 'MessageCounterError'`). -/
def JsError.name : JsError → String
  | .error _ => "Error"
  | .typeError _ => "TypeError"
  | .referenceError _ => "ReferenceError"
  | .messageCounterError => "MessageCounterError"
  | .incomingIdentityKeyError _ _ => "IncomingIdentityKeyError"
  | .textSecureError _ => "TextSecureError"

/-- `e instanceof errors.IncomingIdentityKeyError`. -/
def JsError.isIncomingIdentityKey : JsError → Bool
  | .incomingIdentityKeyError _ _ => true
  | _ => false

/-- Modelled from the spec: `e instanceof errors.TextSecureError`. The class
hierarchy lives in `src/errors.js`, which is not part of the sources here;
per the spec's error taxonomy (§4.5), on the re-entered call an identity-key
error is treated as "anything else", so only the generic
`TextSecureError` family member satisfies this test. -/
def JsError.isTextSecure : JsError → Bool
  | .textSecureError _ => true
  | _ => false

/-- `protobufs.Envelope.lookup('Type').values` constants used by the
receiver (Signal protocol wire values). -/
def ENV_TYPES_RECEIPT : Nat := 5

def ENV_TYPES_CIPHERTEXT : Nat := 1

def ENV_TYPES_PREKEY_BUNDLE : Nat := 3

/-- `protobufs.DataMessage.lookup('Flags').values.END_SESSION`. -/
def DATA_FLAGS_END_SESSION : Nat := 1

/-- An attachment reference inside a decoded `DataMessage`; `data` is written
by `handleAttachment` after download + decrypt. -/
structure Attachment where
  id : Nat
  key : List Nat
  data : Option (List Nat) := none
  deriving DecidableEq, Repr

/-- A decoded `DataMessage`. Absent protobuf fields decode to `null`,
embedded as `none`. -/
structure DataMessage where
  flags : Option Nat := none
  expireTimer : Option Nat := none
  body : Option String := none
  group : Option Nat := none
  attachments : Option (List Attachment) := none
  deriving DecidableEq, Repr

/-- One decoded transport `Envelope`. `keyChange` is transient: it is absent
(`none`) on the wire and only ever set by `handleEnvelope` on an accepted
identity-key change. -/
structure Envelope where
  type : Nat
  source : String
  sourceDevice : Nat
  timestamp : Nat
  content : Option (List Nat) := none
  legacyMessage : Option (List Nat) := none
  keyChange : Option Bool := none
  deriving DecidableEq, Repr

/-- One entry of a sync message's `read` array. -/
structure ReadEntry where
  timestamp : Nat
  sender : String
  deriving DecidableEq, Repr

/-- The `sent` variant of a `SyncMessage`. -/
structure SentMessage where
  destination : String
  timestamp : Nat
  message : DataMessage
  expire : Option Nat := none
  deriving DecidableEq, Repr

/-- A decoded `SyncMessage`. The deprecated variants (`contacts`, `groups`,
`blocked`, `request`) carry payloads the receiver never inspects, embedded
as opaque `Option Nat`. `read` decodes to an array (possibly empty). -/
structure SyncMessage where
  sent : Option SentMessage := none
  read : List ReadEntry := []
  contacts : Option Nat := none
  groups : Option Nat := none
  blocked : Option Nat := none
  request : Option Nat := none
  deriving DecidableEq, Repr

/-- Events the receiver dispatches on itself, with the payload fields the
source attaches to each `Event` object. -/
inductive EmittedEvent where
  | receipt (proto : Envelope)
  | keychange (addr : String) (identityKey : List Nat)
  | errorEv (e : JsError) (proto : Option Envelope)
  | message (timestamp : Nat) (source : String) (sourceDevice : Nat)
      (message : DataMessage) (keyChange : Option Bool)
  | sent (source : String) (sourceDevice : Nat) (timestamp : Nat)
      (destination : String) (message : DataMessage)
      (expirationStartTimestamp : Option Nat)
  | readEv (timestamp : Nat) (readTimestamp : Nat) (sender : String)
      (source : String) (sourceDevice : Nat)
  deriving DecidableEq, Repr

/-! ## unpad (`MessageReceiver.unpad`) -/

/-- The loop of `unpad`: `for (let i = buf.byteLength - 1; i >= 0; i--)`.
`unpadFrom buf (i+1)` inspects `buf[i]`: a `0x80` byte returns
`buf.slice(0, i)`, any other non-zero byte throws `Invalid padding`, a zero
byte continues the scan; when the loop index is exhausted the buffer itself
is returned (`return buf; // empty`). -/
def unpadFrom (buf : List Nat) : Nat → Except JsError (List Nat)
  | 0 => Except.ok buf
  | i + 1 =>
    let b := buf.getD i 0
    if b = 0x80 then Except.ok (buf.take i)
    else if b ≠ 0x00 then Except.error (JsError.error "Invalid padding")
    else unpadFrom buf i

/-- `MessageReceiver.unpad(buf)`: scan from the tail. -/
def unpad (buf : List Nat) : Except JsError (List Nat) :=
  unpadFrom buf buf.length

/-! ## External collaborators -/

/-- The external collaborators the content pipeline calls out to:
`storage.getDeviceIds(addr)` and the attachment download + decrypt of
`handleAttachment` (`tss.getAttachment` + `crypto.decryptAttachment`),
which may fail with an arbitrary error. -/
structure Externals where
  getDeviceIds : String → List Nat
  getAttachment : Nat → Except JsError (List Nat)

/-- The observable outcome of one content-layer handler: the events it
dispatched on the receiver, the `(addr, deviceId)` sessions it closed via
`closeOpenSessionForDevice`, and the error it threw, if any. -/
structure HandlerRes where
  events : List EmittedEvent
  closed : List (String × Nat)
  thrown : Option JsError
  deriving Repr

/-! ## Content pipeline (`processDecrypted`, data/sent/read/sync handlers) -/

/-- `MessageReceiver.handleEndSession(addr)`: enumerate device ids from the
store and close the open session of each; returns the closed sessions. -/
def handleEndSession (ext : Externals) (addr : String) : List (String × Nat) :=
  (ext.getDeviceIds addr).map (fun deviceId => (addr, deviceId))

/-- The `msg.attachments.map(this.handleAttachment.bind(this))` fetch under
`Promise.all`: each attachment's ciphertext is downloaded by `id` and
decrypted into its `data` field; a failing fetch fails the whole batch. -/
def fetchAttachments (ext : Externals) :
    List Attachment → Except JsError (List Attachment)
  | [] => Except.ok []
  | a :: rest =>
    match ext.getAttachment a.id with
    | Except.error e => Except.error e
    | Except.ok d =>
      match fetchAttachments ext rest with
      | Except.error e => Except.error e
      | Except.ok rs => Except.ok ({ a with data := some d } :: rs)

/-- `MessageReceiver.processDecrypted(msg, source)`: default `flags` and
`expireTimer` to `0` when `null`; short-circuit on `END_SESSION`; fetch all
attachments; return the mutated message. (`source` is unused by the body,
as in the source.) -/
def processDecrypted (ext : Externals) (msg : DataMessage) (_source : String) :
    Except JsError DataMessage :=
  let msg := if msg.flags = none then { msg with flags := some 0 } else msg
  let msg :=
    if msg.expireTimer = none then { msg with expireTimer := some 0 } else msg
  if msg.flags.getD 0 &&& DATA_FLAGS_END_SESSION ≠ 0 then
    Except.ok msg
  else
    match msg.attachments with
    | none => Except.ok msg
    | some atts =>
      match fetchAttachments ext atts with
      | Except.error e => Except.error e
      | Except.ok atts2 => Except.ok { msg with attachments := some atts2 }

/-- `MessageReceiver.handleDataMessage(message, envelope)`: close sessions on
`END_SESSION`, run `processDecrypted`, then dispatch a `message` event whose
payload carries `{timestamp, source, sourceDevice, message, keyChange}` with
`keyChange` read straight off the envelope. -/
def handleDataMessage (ext : Externals) (msg : DataMessage) (env : Envelope) :
    HandlerRes :=
  let closed :=
    if msg.flags.getD 0 &&& DATA_FLAGS_END_SESSION ≠ 0 then
      handleEndSession ext env.source
    else []
  match processDecrypted ext msg env.source with
  | Except.error e => ⟨[], closed, some e⟩
  | Except.ok m =>
    ⟨[EmittedEvent.message env.timestamp env.source env.sourceDevice m
        env.keyChange], closed, none⟩

/-- `MessageReceiver.handleSentMessage(sent, envelope)`: close sessions for
the destination on `END_SESSION`, run `processDecrypted(sent.message, ownAddr)`,
then dispatch a `sent` event (with `expirationStartTimestamp` only when
`sent.expire` is set). -/
def handleSentMessage (ext : Externals) (ownAddr : String) (sent : SentMessage)
    (env : Envelope) : HandlerRes :=
  let closed :=
    if sent.message.flags.getD 0 &&& DATA_FLAGS_END_SESSION ≠ 0 then
      handleEndSession ext sent.destination
    else []
  match processDecrypted ext sent.message ownAddr with
  | Except.error e => ⟨[], closed, some e⟩
  | Except.ok m =>
    ⟨[EmittedEvent.sent env.source env.sourceDevice sent.timestamp
        sent.destination m sent.expire], closed, none⟩

/-- `MessageReceiver.handleRead(read, envelope)`: one `read` event per entry. -/
def handleRead (read : List ReadEntry) (env : Envelope) : HandlerRes :=
  ⟨read.map (fun x =>
      EmittedEvent.readEv env.timestamp x.timestamp x.sender env.source
        env.sourceDevice), [], none⟩

/-- `MessageReceiver.handleSyncMessage(message, envelope)`: own-address and
own-device guards, then first-match variant dispatch in the source's order:
`sent`, non-empty `read`, `contacts`, `groups`, `blocked`, `request`,
else empty. `handleBlocked` throws `Error("UNSUPPORTRED")`. -/
def handleSyncMessage (ext : Externals) (ownAddr : String) (ownDeviceId : Nat)
    (msg : SyncMessage) (env : Envelope) : HandlerRes :=
  if env.source ≠ ownAddr then
    ⟨[], [], some (JsError.referenceError "Received sync message from another addr")⟩
  else if env.sourceDevice = ownDeviceId then
    ⟨[], [], some (JsError.referenceError "Received sync message from our own device")⟩
  else
    match msg.sent with
    | some s => handleSentMessage ext ownAddr s env
    | none =>
      if msg.read.length ≠ 0 then handleRead msg.read env
      else if msg.contacts.isSome then
        ⟨[], [], some (JsError.typeError "Deprecated contact sync message")⟩
      else if msg.groups.isSome then
        ⟨[], [], some (JsError.typeError "Deprecated group sync message")⟩
      else if msg.blocked.isSome then
        ⟨[], [], some (JsError.error "UNSUPPORTRED")⟩
      else if msg.request.isSome then
        ⟨[], [], some (JsError.typeError "Deprecated group request sync message")⟩
      else
        ⟨[], [], some (JsError.typeError "Empty SyncMessage")⟩

/-! ## Envelope dispatch (`MessageReceiver.handleEnvelope`) -/

/-- A content-layer handler as `handleEnvelope` sees it: applied to the
envelope, it dispatched some events and either returned or threw.
`handleContentMessage` and `handleLegacyMessage` both go through session
decryption, an external collaborator, so they are parameters here. -/
def SessionHandler : Type := Envelope → List EmittedEvent × Option JsError

/-- The result of `handleEnvelope`: the events dispatched, the `reentrant`
flag of each handler entry in order, the envelope in its final state
(`keyChange` possibly set), and the error that escaped, if any. -/
structure EnvResult where
  events : List EmittedEvent
  calls : List Bool
  envelope : Envelope
  thrown : Option JsError
  deriving Repr

/-- The handler-selection head of `handleEnvelope`: `RECEIPT` envelopes go to
`handleDeliveryReceipt` (which dispatches a `receipt` event and succeeds),
envelopes with `content` to `handleContentMessage`, envelopes with
`legacyMessage` to `handleLegacyMessage`; otherwise the
`no content and no legacyMessage` error is thrown before any handler runs
(`none` here). -/
def selectHandler (contentHandler legacyHandler : SessionHandler)
    (env : Envelope) : Option (List EmittedEvent × Option JsError) :=
  if env.type = ENV_TYPES_RECEIPT then
    some ([EmittedEvent.receipt env], none)
  else if env.content.isSome then some (contentHandler env)
  else if env.legacyMessage.isSome then some (legacyHandler env)
  else none

/-- `handleEnvelope(envelope, reentrant=true)` — the re-entered call. The
identity-key branch requires `!reentrant`, so it can never fire here and no
further re-entry is possible. -/
def handleEnvelopeReentrant (contentHandler legacyHandler : SessionHandler)
    (env : Envelope) : EnvResult :=
  match selectHandler contentHandler legacyHandler env with
  | none =>
    ⟨[], [], env,
      some (JsError.error "Received message with no content and no legacyMessage")⟩
  | some (evs, none) => ⟨evs, [true], env, none⟩
  | some (evs, some e) =>
    if e.name = "MessageCounterError" then ⟨evs, [true], env, none⟩
    else if e.isTextSecure then ⟨evs, [true], env, none⟩
    else ⟨evs ++ [EmittedEvent.errorEv e (some env)], [true], env, some e⟩

/-- `handleEnvelope(envelope)` — the initial, non-reentrant call. `accept`
models whether a `keychange` listener sets `ev.accepted = true` during the
dispatch of the `keychange` event. -/
def handleEnvelope (contentHandler legacyHandler : SessionHandler)
    (accept : Bool) (env : Envelope) : EnvResult :=
  match selectHandler contentHandler legacyHandler env with
  | none =>
    ⟨[], [], env,
      some (JsError.error "Received message with no content and no legacyMessage")⟩
  | some (evs, none) => ⟨evs, [false], env, none⟩
  | some (evs, some e) =>
    if e.name = "MessageCounterError" then ⟨evs, [false], env, none⟩
    else
      match e with
      | JsError.incomingIdentityKeyError addr identityKey =>
        let evs2 := evs ++ [EmittedEvent.keychange addr identityKey]
        if accept then
          let env2 := { env with keyChange := some true }
          let r := handleEnvelopeReentrant contentHandler legacyHandler env2
          ⟨evs2 ++ r.events, false :: r.calls, r.envelope, r.thrown⟩
        else ⟨evs2, [false], env, none⟩
      | _ =>
        if e.isTextSecure then ⟨evs, [false], env, none⟩
        else ⟨evs ++ [EmittedEvent.errorEv e (some env)], [false], env, some e⟩

/-! ## Transport requests (`MessageReceiver.handleRequest`) -/

/-- One inbound websocket-resource request. -/
structure Request where
  verb : String
  path : String
  body : List Nat
  deriving DecidableEq, Repr

/-- The observable outcome of `handleRequest`: every `request.respond(status,
reason)` call made, in order; the events dispatched; the error that escaped,
if any. -/
structure RequestResult where
  responds : List (Nat × String)
  events : List EmittedEvent
  thrown : Option JsError
  deriving Repr

/-- `MessageReceiver.handleRequest(request)`. `decode` stands for the frame
pipeline `crypto.decryptWebsocketMessage` + `protobufs.Envelope.decode` +
timestamp normalization (all external to this file); `handleEnv` stands for
`this.handleEnvelope`, returning the events it dispatched and the error it
threw, if any. A bad verb or path throws before any `respond`; a frame
failure responds `500`, dispatches an `error` event and rethrows; otherwise
`respond(200, 'OK')` runs in a `finally`, so it is made whether or not
`handleEnvelope` threw, and the handler's error then escapes. -/
def handleRequest (decode : List Nat → Except JsError Envelope)
    (handleEnv : Envelope → List EmittedEvent × Option JsError)
    (req : Request) : RequestResult :=
  if req.path ≠ "/api/v1/message" ∨ req.verb ≠ "PUT" then
    ⟨[], [], some (JsError.error "Invalid WebSocket resource received")⟩
  else
    match decode req.body with
    | Except.error e =>
      ⟨[(500, "Bad encrypted websocket message")],
        [EmittedEvent.errorEv e none], some e⟩
    | Except.ok env =>
      let (evs, r) := handleEnv env
      ⟨[(200, "OK")], evs, r⟩

/-! ## EventTarget (`src/event_target.js`) -/

/-- A registered listener, abstracted to its observable behaviour when
invoked: either it returns or it throws (the dispatcher swallows either). -/
def Listener : Type := Unit → Option JsError

/-- An `EventTarget`. `_listeners` is lazily created: it is absent until the
first `addEventListener` call, then maps each event name that was ever
registered to its (possibly emptied) callback array. -/
structure EvTarget where
  listeners : Option (List (String × List Listener))

/-- Association-list lookup, modelling the JS property access
`this._listeners[name]` (`none` is `undefined`). -/
def lookupName (name : String) :
    List (String × List Listener) → Option (List Listener)
  | [] => none
  | (k, v) :: rest => if k = name then some v else lookupName name rest

/-- Association-list update for `this._listeners[name] = arr`. -/
def setName (name : String) (v : List Listener) :
    List (String × List Listener) → List (String × List Listener)
  | [] => [(name, v)]
  | (k, w) :: rest =>
    if k = name then (k, v) :: rest else (k, w) :: setName name v rest

/-- `EventTarget.addEventListener(eventName, callback)`: create `_listeners`
if absent, then create or extend the per-name array. -/
def addEventListener (t : EvTarget) (eventName : String) (callback : Listener) :
    EvTarget :=
  let m := t.listeners.getD []
  match lookupName eventName m with
  | none => ⟨some (setName eventName [callback] m)⟩
  | some arr => ⟨some (setName eventName (arr ++ [callback]) m)⟩

/-- `EventTarget.dispatchEvent(ev)`: return silently when `_listeners` was
never created; otherwise iterate `this._listeners[ev.type]` — a `for…of`
over `undefined` throws a `TypeError` — awaiting each callback and
swallowing (logging) any listener fault. -/
def dispatchEvent (t : EvTarget) (evType : String) : Option JsError :=
  match t.listeners with
  | none => none
  | some m =>
    match lookupName evType m with
    | none => some (JsError.typeError "listeners is not iterable")
    | some callbacks =>
      (callbacks.map (fun cb => cb ())).foldl (fun _ _ => none) none

/-! ## Lemmas about `unpad` -/

/-- Scanning a run of zero bytes just moves the loop index past them. -/
theorem unpadFrom_zeros (buf : List Nat) (i : Nat) :
    ∀ k, (∀ j, i ≤ j → j < i + k → buf.getD j 0 = 0) →
      unpadFrom buf (i + k) = unpadFrom buf i := by
  intro k
  induction k with
  | zero => intro _; rfl
  | succ k ih =>
    intro h
    have hz : buf.getD (i + k) 0 = 0 := by
      exact h (i + k) (Nat.le_add_right i k) (by omega)
    show unpadFrom buf (i + k + 1) = unpadFrom buf i
    have step : unpadFrom buf (i + k + 1) = unpadFrom buf (i + k) := by
      have hz2 : buf[i + k]?.getD 0 = 0 := by simpa [List.getD] using hz
      simp [unpadFrom, hz2]
    rw [step]
    exact ih (fun j hj1 hj2 => h j hj1 (by omega))

/-- Every byte of an all-zero buffer reads back `0` (also out of range). -/
theorem getD_replicate_zero : ∀ n j, (List.replicate n (0 : Nat)).getD j 0 = 0 := by
  intro n
  induction n with
  | zero => intro j; simp [List.getD]
  | succ n ih =>
    intro j
    cases j with
    | zero => simp [List.replicate]
    | succ j =>
      rw [List.replicate, List.getD_cons_succ]
      exact ih j

/-- Reading the byte just after a prefix `l` picks out `c`. -/
theorem getD_append_mid (l : List Nat) (c : Nat) (t : List Nat) :
    (l ++ c :: t).getD l.length 0 = c := by
  induction l with
  | nil => rfl
  | cons a l ih =>
    rw [List.cons_append, show (a :: l).length = l.length + 1 from rfl,
      List.getD_cons_succ]
    exact ih

/-- Reading past the `c` byte lands in the tail `t`. -/
theorem getD_append_tail (l : List Nat) (c : Nat) (t : List Nat) (j : Nat) :
    (l ++ c :: t).getD (l.length + 1 + j) 0 = t.getD j 0 := by
  induction l with
  | nil =>
    have h : ([] : List Nat).length + 1 + j = j + 1 := by simp; omega
    rw [List.nil_append, h, List.getD_cons_succ]
  | cons a l ih =>
    have h : (a :: l).length + 1 + j = l.length + 1 + j + 1 := by simp; omega
    rw [List.cons_append, h, List.getD_cons_succ]
    exact ih

/-- `unpad` on a buffer ending in `c` followed by `k` zero bytes reduces to
the scan stopping at `c`. -/
theorem unpad_tail_zeros (l : List Nat) (c : Nat) (k : Nat) :
    unpad (l ++ c :: List.replicate k 0) =
      unpadFrom (l ++ c :: List.replicate k 0) (l.length + 1) := by
  have hlen : (l ++ c :: List.replicate k 0).length = l.length + 1 + k := by
    simp [List.length_append, List.length_replicate]; omega
  have hz : ∀ j, l.length + 1 ≤ j → j < l.length + 1 + k →
      (l ++ c :: List.replicate k 0).getD j 0 = 0 := by
    intro j hj1 hj2
    have : j = l.length + 1 + (j - (l.length + 1)) := by omega
    rw [this, getD_append_tail]
    exact getD_replicate_zero k _
  calc unpad (l ++ c :: List.replicate k 0)
      = unpadFrom (l ++ c :: List.replicate k 0) (l.length + 1 + k) := by
        rw [unpad, hlen]
    _ = unpadFrom (l ++ c :: List.replicate k 0) (l.length + 1) :=
        unpadFrom_zeros _ _ k hz

/-- C4 (code bug exhibit): `unpad` on an all-zero buffer returns the buffer
itself, unchanged — the loop falls through to `return buf` — so a non-empty
all-zero buffer such as `[0x00]` does NOT come back empty, contradicting the
source's own `// empty` comment and the spec. -/
theorem unpad_allZero_returns_buffer :
    (∀ n, unpad (List.replicate n 0) = Except.ok (List.replicate n 0)) ∧
      unpad [0] = Except.ok [0] ∧ ([0] : List Nat) ≠ [] := by
  refine ⟨?_, by rfl, by decide⟩
  intro n
  have h := unpadFrom_zeros (List.replicate n 0) 0 n
    (fun j _ _ => getD_replicate_zero n j)
  have h2 : unpad (List.replicate n 0) = unpadFrom (List.replicate n 0) n := by
    simp [unpad]
  rw [h2]
  simpa using h

/-- C5: padding round-trip — for every plaintext and every count `k` of zero
filler bytes, `unpad (plaintext ++ [0x80] ++ [0x00]*k) = plaintext`; and any
buffer whose first non-zero byte from the tail is some `b ∉ {0, 0x80}` is
rejected with the `Invalid padding` error. -/
theorem unpad_roundtrip_and_reject :
    (∀ (pt : List Nat) (k : Nat),
        unpad (pt ++ 0x80 :: List.replicate k 0) = Except.ok pt) ∧
      (∀ (front : List Nat) (b k : Nat), b ≠ 0 → b ≠ 0x80 →
        unpad (front ++ b :: List.replicate k 0) =
          Except.error (JsError.error "Invalid padding")) := by
  constructor
  · intro pt k
    rw [unpad_tail_zeros]
    rw [unpadFrom]
    rw [getD_append_mid]
    simp [List.take_left]
  · intro front b k hb0 hb80
    rw [unpad_tail_zeros]
    rw [unpadFrom]
    rw [getD_append_mid]
    simp [hb0, hb80]

/-- Witness for C5 at concrete inputs: `[1,2]` padded with `0x80` and two
zeros unpads to `[1,2]`, and a trailer byte `7` is rejected. -/
theorem unpad_roundtrip_and_reject_witness :
    unpad ([1, 2] ++ 0x80 :: List.replicate 2 0) = Except.ok [1, 2] ∧
      unpad ([5] ++ 7 :: List.replicate 1 0) =
        Except.error (JsError.error "Invalid padding") :=
  ⟨unpad_roundtrip_and_reject.1 [1, 2] 2,
    unpad_roundtrip_and_reject.2 [5] 7 1 (by decide) (by decide)⟩

/-! ## Transport ACK discipline -/

/-- C1: on a well-formed transport request (`PUT /api/v1/message`), if the
frame decodes then `handleRequest` makes exactly one `respond` call and it is
`(200, 'OK')`, for every possible outcome of `handleEnvelope` (including any
thrown error, which still propagates); the status is `500` exactly when the
frame failed to decrypt/decode, and then an `error` event is dispatched and
the failure propagates. -/
theorem handleRequest_ack_discipline
    (decode : List Nat → Except JsError Envelope)
    (handleEnv : Envelope → List EmittedEvent × Option JsError)
    (req : Request) (hpath : req.path = "/api/v1/message")
    (hverb : req.verb = "PUT") :
    (∀ env, decode req.body = Except.ok env →
        (handleRequest decode handleEnv req).responds = [(200, "OK")] ∧
          (handleRequest decode handleEnv req).thrown = (handleEnv env).2) ∧
      ∀ e, decode req.body = Except.error e →
        (handleRequest decode handleEnv req).responds =
            [(500, "Bad encrypted websocket message")] ∧
          (handleRequest decode handleEnv req).events =
            [EmittedEvent.errorEv e none] ∧
          (handleRequest decode handleEnv req).thrown = some e := by
  constructor
  · intro env h
    simp [handleRequest, hpath, hverb, h]
  · intro e h
    simp [handleRequest, hpath, hverb, h]

/-- Witness for C1: a concrete request whose frame decodes, with a handler
that throws, is still ACKed with exactly one `(200, 'OK')` respond call. -/
theorem handleRequest_ack_discipline_witness :
    (handleRequest
        (fun _ => Except.ok
          { type := 1, source := "s", sourceDevice := 1, timestamp := 0,
            content := some [1] })
        (fun _ => ([], some (JsError.error "boom")))
        ⟨"PUT", "/api/v1/message", [0]⟩).responds = [(200, "OK")] :=
  ((handleRequest_ack_discipline _ _ _ rfl rfl).1
    { type := 1, source := "s", sourceDevice := 1, timestamp := 0,
      content := some [1] } rfl).1

/-- C2 counterexample: a request with a bad verb (`GET`) makes NO `respond`
call at all — in particular none with status `400` — before the handler
throws, refuting the claim that a `400` (or equivalent) response is made. -/
theorem handleRequest_badRequest_cex :
    (handleRequest (fun _ => Except.error (JsError.error "x"))
        (fun _ => ([], none)) ⟨"GET", "/api/v1/message", []⟩).responds =
        ([] : List (Nat × String)) ∧
      (handleRequest (fun _ => Except.error (JsError.error "x"))
          (fun _ => ([], none)) ⟨"GET", "/api/v1/message", []⟩).thrown =
        some (JsError.error "Invalid WebSocket resource received") :=
  ⟨rfl, rfl⟩

/-- C2 (amended): for every request whose verb is not `PUT` or whose path is
not `/api/v1/message`, `handleRequest` makes no `respond` call, dispatches no
event, and fails with `Error('Invalid WebSocket resource received')`. -/
theorem handleRequest_badRequest_throws
    (decode : List Nat → Except JsError Envelope)
    (handleEnv : Envelope → List EmittedEvent × Option JsError)
    (req : Request)
    (h : req.verb ≠ "PUT" ∨ req.path ≠ "/api/v1/message") :
    handleRequest decode handleEnv req =
      ⟨[], [], some (JsError.error "Invalid WebSocket resource received")⟩ := by
  rcases h with h | h <;> simp [handleRequest, h]

/-- Witness for the amended C2 at a concrete `POST` request. -/
theorem handleRequest_badRequest_throws_witness :
    handleRequest (fun _ => Except.error (JsError.error "y"))
        (fun _ => ([], none)) ⟨"POST", "/api/v1/message", [7]⟩ =
      ⟨[], [], some (JsError.error "Invalid WebSocket resource received")⟩ :=
  handleRequest_badRequest_throws _ _ _ (Or.inl (by decide))

/-! ## SyncMessage guards and dispatch order -/

/-- C7: `handleSyncMessage` fails with the foreign-sync error when the
envelope's source is not the receiver's own address, and (when the source is
own) with the self-sync error when the source device is the receiver's own
device id; in either case no event at all is dispatched (so in particular no
`message` and no `sent` event) and no session is touched. -/
theorem handleSyncMessage_guards (ext : Externals) (ownAddr : String)
    (ownDeviceId : Nat) (msg : SyncMessage) (env : Envelope) :
    (env.source ≠ ownAddr →
        handleSyncMessage ext ownAddr ownDeviceId msg env =
          ⟨[], [], some (JsError.referenceError
            "Received sync message from another addr")⟩) ∧
      (env.source = ownAddr → env.sourceDevice = ownDeviceId →
        handleSyncMessage ext ownAddr ownDeviceId msg env =
          ⟨[], [], some (JsError.referenceError
            "Received sync message from our own device")⟩) := by
  constructor
  · intro h
    simp [handleSyncMessage, h]
  · intro h1 h2
    simp [handleSyncMessage, h1, h2]

/-- Witness for C7: a foreign-source sync envelope and an own-device sync
envelope at concrete values. -/
theorem handleSyncMessage_guards_witness :
    handleSyncMessage ⟨fun _ => [], fun _ => Except.error
          JsError.messageCounterError⟩ "me" 1 {}
        { type := 1, source := "other", sourceDevice := 2, timestamp := 0 } =
      ⟨[], [], some (JsError.referenceError
        "Received sync message from another addr")⟩ ∧
      handleSyncMessage ⟨fun _ => [], fun _ => Except.error
            JsError.messageCounterError⟩ "me" 1 {}
          { type := 1, source := "me", sourceDevice := 1, timestamp := 0 } =
        ⟨[], [], some (JsError.referenceError
          "Received sync message from our own device")⟩ :=
  ⟨(handleSyncMessage_guards _ _ _ _ _).1 (by decide),
    (handleSyncMessage_guards _ _ _ _ _).2 rfl rfl⟩

/-- C3 counterexample: a sync message carrying both a `blocked` field and a
`contacts` field takes the deprecated-contacts branch — `handleSyncMessage`
fails with `TypeError('Deprecated contact sync message')`, not with the
blocked handler's `Error('UNSUPPORTRED')` — refuting the claimed precedence
of `blocked` over `contacts`. -/
theorem handleSyncMessage_blocked_contacts_cex :
    (handleSyncMessage ⟨fun _ => [], fun _ => Except.error
          JsError.messageCounterError⟩ "me" 1
        { contacts := some 0, blocked := some 0 }
        { type := 1, source := "me", sourceDevice := 2, timestamp := 0 }).thrown =
        some (JsError.typeError "Deprecated contact sync message") ∧
      (handleSyncMessage ⟨fun _ => [], fun _ => Except.error
            JsError.messageCounterError⟩ "me" 1
          { contacts := some 0, blocked := some 0 }
          { type := 1, source := "me", sourceDevice := 2,
            timestamp := 0 }).thrown ≠
        some (JsError.error "UNSUPPORTRED") :=
  ⟨rfl, by decide⟩

/-- C3 (amended): after the guards pass, `handleSyncMessage` dispatches
variants in exactly this first-match order: `sent`, then non-empty `read[]`,
then `contacts` (deprecated failure), then `groups` (deprecated failure),
then `blocked` (fails with `UNSUPPORTRED`), then `request` (deprecated
failure), else the empty-sync failure. In particular a message with both a
`blocked` and a `contacts` (or `groups`) field takes the deprecated-sync
failure, not the blocked branch. -/
theorem handleSyncMessage_dispatch_order (ext : Externals) (ownAddr : String)
    (ownDeviceId : Nat) (msg : SyncMessage) (env : Envelope)
    (hsrc : env.source = ownAddr) (hdev : env.sourceDevice ≠ ownDeviceId) :
    (∀ s, msg.sent = some s →
        handleSyncMessage ext ownAddr ownDeviceId msg env =
          handleSentMessage ext ownAddr s env) ∧
      (msg.sent = none → msg.read ≠ [] →
        handleSyncMessage ext ownAddr ownDeviceId msg env =
          handleRead msg.read env) ∧
      (msg.sent = none → msg.read = [] → msg.contacts.isSome →
        handleSyncMessage ext ownAddr ownDeviceId msg env =
          ⟨[], [], some (JsError.typeError "Deprecated contact sync message")⟩) ∧
      (msg.sent = none → msg.read = [] → msg.contacts = none →
        msg.groups.isSome →
        handleSyncMessage ext ownAddr ownDeviceId msg env =
          ⟨[], [], some (JsError.typeError "Deprecated group sync message")⟩) ∧
      (msg.sent = none → msg.read = [] → msg.contacts = none →
        msg.groups = none → msg.blocked.isSome →
        handleSyncMessage ext ownAddr ownDeviceId msg env =
          ⟨[], [], some (JsError.error "UNSUPPORTRED")⟩) ∧
      (msg.sent = none → msg.read = [] → msg.contacts = none →
        msg.groups = none → msg.blocked = none → msg.request.isSome →
        handleSyncMessage ext ownAddr ownDeviceId msg env =
          ⟨[], [], some (JsError.typeError
            "Deprecated group request sync message")⟩) ∧
      (msg.sent = none → msg.read = [] → msg.contacts = none →
        msg.groups = none → msg.blocked = none → msg.request = none →
        handleSyncMessage ext ownAddr ownDeviceId msg env =
          ⟨[], [], some (JsError.typeError "Empty SyncMessage")⟩) := by
  refine ⟨?_, ?_, ?_, ?_, ?_, ?_, ?_⟩ <;>
    intros <;>
    simp_all [handleSyncMessage]

/-- Witness for the amended C3: a sync message with both `blocked` and
`contacts` fields falls into the deprecated-contacts branch. -/
theorem handleSyncMessage_dispatch_order_witness :
    handleSyncMessage ⟨fun _ => [], fun _ => Except.error
          JsError.messageCounterError⟩ "me" 7
        { contacts := some 1, blocked := some 1 }
        { type := 1, source := "me", sourceDevice := 3, timestamp := 0 } =
      ⟨[], [], some (JsError.typeError "Deprecated contact sync message")⟩ :=
  ((handleSyncMessage_dispatch_order
    ⟨fun _ => [], fun _ => Except.error JsError.messageCounterError⟩ "me" 7
    { contacts := some 1, blocked := some 1 }
    { type := 1, source := "me", sourceDevice := 3, timestamp := 0 } rfl
    (by decide)).2.2.1) rfl rfl rfl

/-! ## DataMessage events and the keyChange payload field -/

/-- C8 counterexample: for an envelope whose `keyChange` flag was never set
(it is absent, `none` — JS `undefined`), the emitted `message` event's
payload carries that absent value, which is not the boolean `false`. -/
theorem handleDataMessage_keyChange_cex :
    (handleDataMessage ⟨fun _ => [], fun _ => Except.error
          JsError.messageCounterError⟩ {}
        { type := 1, source := "a", sourceDevice := 2, timestamp := 5,
          content := some [1] }).events =
        [EmittedEvent.message 5 "a" 2 { flags := some 0, expireTimer := some 0 }
          none] ∧
      (none : Option Bool) ≠ some false :=
  ⟨rfl, by decide⟩

/-- C8 (amended): for every envelope handled without an identity-key
re-entry (`keyChange` never set, i.e. absent), whenever `processDecrypted`
succeeds, the `message` event emitted by `handleDataMessage` carries the
absent `keyChange` value (`undefined`, which is falsy) in its payload — not
the boolean `false`. -/
theorem handleDataMessage_keyChange_unset (ext : Externals)
    (msg : DataMessage) (env : Envelope) (m : DataMessage)
    (hkc : env.keyChange = none)
    (hp : processDecrypted ext msg env.source = Except.ok m) :
    (handleDataMessage ext msg env).events =
        [EmittedEvent.message env.timestamp env.source env.sourceDevice m
          none] ∧
      (handleDataMessage ext msg env).thrown = none := by
  constructor <;> simp [handleDataMessage, hp, hkc]

/-- Witness for the amended C8 at a concrete envelope and message. -/
theorem handleDataMessage_keyChange_unset_witness :
    (handleDataMessage ⟨fun _ => [], fun _ => Except.error
          JsError.messageCounterError⟩ { body := some "hi" }
        { type := 1, source := "+15550001111", sourceDevice := 1,
          timestamp := 9, content := some [1] }).events =
      [EmittedEvent.message 9 "+15550001111" 1
        { flags := some 0, expireTimer := some 0, body := some "hi" } none] :=
  (handleDataMessage_keyChange_unset
    ⟨fun _ => [], fun _ => Except.error JsError.messageCounterError⟩
    { body := some "hi" }
    { type := 1, source := "+15550001111", sourceDevice := 1,
      timestamp := 9, content := some [1] }
    { flags := some 0, expireTimer := some 0, body := some "hi" }
    rfl rfl).1

/-! ## Envelope dispatch: error taxonomy and identity-key re-entry -/

/-- Number of `keychange` events in a list of dispatched events. -/
def countKeychange (evs : List EmittedEvent) : Nat :=
  evs.countP (fun ev =>
    match ev with
    | EmittedEvent.keychange _ _ => true
    | _ => false)

/-- A non-receipt envelope with `content` goes to the content handler. -/
theorem selectHandler_content (contentHandler legacyHandler : SessionHandler)
    (env : Envelope) (htype : env.type ≠ ENV_TYPES_RECEIPT)
    (hc : env.content.isSome) :
    selectHandler contentHandler legacyHandler env =
      some (contentHandler env) := by
  simp [selectHandler, htype, hc]

/-- The re-entered dispatch enters the handler at most once, with the
`reentrant` flag, and never mutates the envelope. -/
theorem handleEnvelopeReentrant_shape (contentHandler legacyHandler :
    SessionHandler) (env : Envelope) :
    ((handleEnvelopeReentrant contentHandler legacyHandler env).calls = [] ∨
        (handleEnvelopeReentrant contentHandler legacyHandler env).calls =
          [true]) ∧
      (handleEnvelopeReentrant contentHandler legacyHandler env).envelope =
        env := by
  rcases h : selectHandler contentHandler legacyHandler env with _ | ⟨evs, res⟩
  · simp [handleEnvelopeReentrant, h]
  · rcases res with _ | e
    · simp [handleEnvelopeReentrant, h]
    · simp only [handleEnvelopeReentrant, h]
      split_ifs <;> simp

/-- Whenever a handler is selected, the re-entered dispatch enters it exactly
once (with the `reentrant` flag). -/
theorem handleEnvelopeReentrant_calls_of_some (contentHandler legacyHandler :
    SessionHandler) (env : Envelope) (p : List EmittedEvent × Option JsError)
    (h : selectHandler contentHandler legacyHandler env = some p) :
    (handleEnvelopeReentrant contentHandler legacyHandler env).calls =
      [true] := by
  rcases p with ⟨evs, res⟩
  rcases res with _ | e
  · simp [handleEnvelopeReentrant, h]
  · simp only [handleEnvelopeReentrant, h]
    split_ifs <;> simp

/-- The re-entered dispatch never dispatches a `keychange` event beyond those
the handler itself dispatched. -/
theorem handleEnvelopeReentrant_keychange (contentHandler legacyHandler :
    SessionHandler) (env : Envelope)
    (h : countKeychange (contentHandler env).1 = 0)
    (htype : env.type ≠ ENV_TYPES_RECEIPT) (hc : env.content.isSome) :
    countKeychange
      (handleEnvelopeReentrant contentHandler legacyHandler env).events = 0 := by
  have hs := selectHandler_content contentHandler legacyHandler env htype hc
  rcases hch : contentHandler env with ⟨evs, res⟩
  rw [hch] at hs h
  rcases res with _ | e
  · simpa [handleEnvelopeReentrant, hs] using h
  · simp only [handleEnvelopeReentrant, hs]
    split_ifs <;> simp_all [countKeychange]

/-- C9: when the selected handler fails with a `MessageCounterError` having
dispatched nothing, `handleEnvelope` swallows the error and returns normally
with no event dispatched for that envelope, and the transport layer
consequently still ACKs the request with `200`. -/
theorem handleEnvelope_messageCounter_swallowed
    (contentHandler legacyHandler : SessionHandler) (accept : Bool)
    (env : Envelope) (decode : List Nat → Except JsError Envelope)
    (req : Request)
    (htype : env.type ≠ ENV_TYPES_RECEIPT) (hc : env.content.isSome)
    (hch : contentHandler env = ([], some JsError.messageCounterError))
    (hpath : req.path = "/api/v1/message") (hverb : req.verb = "PUT")
    (hdec : decode req.body = Except.ok env) :
    handleEnvelope contentHandler legacyHandler accept env =
        ⟨[], [false], env, none⟩ ∧
      (handleRequest decode
          (fun e =>
            ((handleEnvelope contentHandler legacyHandler accept e).events,
              (handleEnvelope contentHandler legacyHandler accept e).thrown))
          req).responds = [(200, "OK")] := by
  have hs := selectHandler_content contentHandler legacyHandler env htype hc
  rw [hch] at hs
  constructor
  · simp [handleEnvelope, hs, JsError.name]
  · simp [handleRequest, hpath, hverb, hdec]

/-- Witness for C9: a concrete envelope whose content handler throws
`MessageCounterError` is handled without events, without error, and ACKed. -/
theorem handleEnvelope_messageCounter_swallowed_witness :
    handleEnvelope (fun _ => ([], some JsError.messageCounterError))
        (fun _ => ([], none)) false
        { type := 1, source := "s", sourceDevice := 1, timestamp := 0,
          content := some [9] } =
        ⟨[], [false],
          { type := 1, source := "s", sourceDevice := 1, timestamp := 0,
            content := some [9] }, none⟩ ∧
      (handleRequest
          (fun _ => Except.ok
            { type := 1, source := "s", sourceDevice := 1, timestamp := 0,
              content := some [9] })
          (fun e =>
            ((handleEnvelope (fun _ => ([], some JsError.messageCounterError))
                (fun _ => ([], none)) false e).events,
              (handleEnvelope (fun _ => ([], some JsError.messageCounterError))
                (fun _ => ([], none)) false e).thrown))
          ⟨"PUT", "/api/v1/message", [2]⟩).responds = [(200, "OK")] :=
  handleEnvelope_messageCounter_swallowed
    (fun _ => ([], some JsError.messageCounterError)) (fun _ => ([], none))
    false
    { type := 1, source := "s", sourceDevice := 1, timestamp := 0,
      content := some [9] }
    (fun _ => Except.ok
      { type := 1, source := "s", sourceDevice := 1, timestamp := 0,
        content := some [9] })
    ⟨"PUT", "/api/v1/message", [2]⟩
    (by decide) rfl rfl rfl rfl rfl

/-- C6: when the content handler of a non-reentrant dispatch fails with an
`IncomingIdentityKeyError`, `handleEnvelope` dispatches exactly one
`keychange` event; if the listener accepts, the envelope's `keyChange` flag
is set and the handler is re-entered exactly once with `reentrant = true`;
otherwise the error is swallowed and no re-entry happens. Moreover, over all
handlers and envelopes, no dispatch ever enters a handler with
`reentrant = true` more than once. -/
theorem handleEnvelope_keychange_reentry
    (contentHandler legacyHandler : SessionHandler) (accept : Bool)
    (env : Envelope) (a : String) (ik : List Nat) (evs1 : List EmittedEvent)
    (htype : env.type ≠ ENV_TYPES_RECEIPT) (hc : env.content.isSome)
    (hch : contentHandler env =
      (evs1, some (JsError.incomingIdentityKeyError a ik)))
    (h1 : countKeychange evs1 = 0)
    (h2 : countKeychange
      (contentHandler { env with keyChange := some true }).1 = 0) :
    countKeychange
        (handleEnvelope contentHandler legacyHandler accept env).events = 1 ∧
      (accept = true →
        (handleEnvelope contentHandler legacyHandler accept
              env).envelope.keyChange = some true ∧
          (handleEnvelope contentHandler legacyHandler accept env).calls =
            [false, true]) ∧
      (accept = false →
        (handleEnvelope contentHandler legacyHandler accept env).thrown =
            none ∧
          (handleEnvelope contentHandler legacyHandler accept env).calls =
            [false]) ∧
      ∀ (ch2 lh2 : SessionHandler) (acc2 : Bool) (env2 : Envelope),
        (handleEnvelope ch2 lh2 acc2 env2).calls.count true ≤ 1 := by
  have hs := selectHandler_content contentHandler legacyHandler env htype hc
  rw [hch] at hs
  have htype2 : Envelope.type { env with keyChange := some true } ≠
      ENV_TYPES_RECEIPT := htype
  have hc2 : Envelope.content { env with keyChange := some true } |>.isSome :=
    hc
  have hre := handleEnvelopeReentrant_shape contentHandler legacyHandler
    { env with keyChange := some true }
  have hrek := handleEnvelopeReentrant_keychange contentHandler legacyHandler
    { env with keyChange := some true } h2 htype2 hc2
  refine ⟨?_, ?_, ?_, ?_⟩
  · cases accept with
    | false =>
      simp [handleEnvelope, hs, JsError.name, countKeychange] at h1 ⊢
      simpa [countKeychange] using h1
    | true =>
      simp only [handleEnvelope, hs, JsError.name]
      rw [if_neg (by decide)]
      simp only [if_pos rfl, countKeychange, List.countP_append] at h1 hrek ⊢
      simp [h1, hrek, countKeychange]
  · intro ha
    subst ha
    have hcalls := handleEnvelopeReentrant_calls_of_some contentHandler
      legacyHandler { env with keyChange := some true } _
      (selectHandler_content contentHandler legacyHandler
        { env with keyChange := some true } htype2 hc2)
    have henv := (handleEnvelopeReentrant_shape contentHandler legacyHandler
      { env with keyChange := some true }).2
    simp [handleEnvelope, hs, JsError.name, hcalls, henv]
  · intro ha
    subst ha
    simp [handleEnvelope, hs, JsError.name]
  · intro ch2 lh2 acc2 env2
    rcases hsel : selectHandler ch2 lh2 env2 with _ | ⟨evs2, res2⟩
    · simp [handleEnvelope, hsel]
    · rcases res2 with _ | e2
      · simp [handleEnvelope, hsel]
      · cases e2 with
        | incomingIdentityKeyError a2 k2 =>
          simp only [handleEnvelope, hsel, JsError.name]
          rw [if_neg (by decide)]
          cases acc2 with
          | false => simp
          | true =>
            simp only [if_pos rfl]
            rcases (handleEnvelopeReentrant_shape ch2 lh2
                { env2 with keyChange := some true }).1 with h | h <;>
              simp [h]
        | error m =>
          simp only [handleEnvelope, hsel, JsError.name]
          split_ifs <;> simp
        | typeError m =>
          simp only [handleEnvelope, hsel, JsError.name]
          split_ifs <;> simp
        | referenceError m =>
          simp only [handleEnvelope, hsel, JsError.name]
          split_ifs <;> simp
        | messageCounterError => simp [handleEnvelope, hsel, JsError.name]
        | textSecureError m =>
          simp only [handleEnvelope, hsel, JsError.name]
          split_ifs <;> simp

/-- Witness for C6: a concrete content handler that throws an identity-key
error on the first pass and succeeds once the envelope's `keyChange` flag is
set, with an accepting listener — one `keychange` event, flag set, exactly
one reentrant entry. -/
theorem handleEnvelope_keychange_reentry_witness :
    countKeychange
        (handleEnvelope
          (fun e => if e.keyChange = some true then ([], none)
            else ([], some (JsError.incomingIdentityKeyError "peer" [1])))
          (fun _ => ([], none)) true
          { type := 1, source := "s", sourceDevice := 1, timestamp := 0,
            content := some [1] }).events = 1 ∧
      (handleEnvelope
          (fun e => if e.keyChange = some true then ([], none)
            else ([], some (JsError.incomingIdentityKeyError "peer" [1])))
          (fun _ => ([], none)) true
          { type := 1, source := "s", sourceDevice := 1, timestamp := 0,
            content := some [1] }).envelope.keyChange = some true ∧
      (handleEnvelope
          (fun e => if e.keyChange = some true then ([], none)
            else ([], some (JsError.incomingIdentityKeyError "peer" [1])))
          (fun _ => ([], none)) true
          { type := 1, source := "s", sourceDevice := 1, timestamp := 0,
            content := some [1] }).calls = [false, true] ∧
      ((handleEnvelope
          (fun e => if e.keyChange = some true then ([], none)
            else ([], some (JsError.incomingIdentityKeyError "peer" [1])))
          (fun _ => ([], none)) true
          { type := 1, source := "s", sourceDevice := 1, timestamp := 0,
            content := some [1] }).calls.count true ≤ 1) := by
  have T := handleEnvelope_keychange_reentry
    (fun e => if e.keyChange = some true then ([], none)
      else ([], some (JsError.incomingIdentityKeyError "peer" [1])))
    (fun _ => ([], none)) true
    { type := 1, source := "s", sourceDevice := 1, timestamp := 0,
      content := some [1] }
    "peer" [1] [] (by decide) rfl rfl rfl rfl
  exact ⟨T.1, (T.2.1 rfl).1, (T.2.1 rfl).2,
    T.2.2.2 (fun e => if e.keyChange = some true then ([], none)
      else ([], some (JsError.incomingIdentityKeyError "peer" [1])))
      (fun _ => ([], none)) true
      { type := 1, source := "s", sourceDevice := 1, timestamp := 0,
        content := some [1] }⟩

/-! ## EventTarget dispatch partiality -/

/-- C10: `dispatchEvent` is not total over event types — once `_listeners`
exists (it is created by the first `addEventListener` call, for any event
name, and every `addEventListener` leaves it existing), dispatching an event
whose type was never registered iterates an undefined listener list and
throws a `TypeError`; dispatching a registered type runs its listeners and
returns; only a target whose `_listeners` was never created returns
silently. -/
theorem dispatchEvent_partiality (t : EvTarget) (name : String) :
    (∀ m, t.listeners = some m → lookupName name m = none →
        dispatchEvent t name =
          some (JsError.typeError "listeners is not iterable")) ∧
      (∀ m callbacks, t.listeners = some m →
        lookupName name m = some callbacks → dispatchEvent t name = none) ∧
      (t.listeners = none → dispatchEvent t name = none) ∧
      ∀ (eventName : String) (cb : Listener),
        (addEventListener t eventName cb).listeners ≠ none := by
  refine ⟨?_, ?_, ?_, ?_⟩
  · intro m hm hl
    simp [dispatchEvent, hm, hl]
  · intro m callbacks hm hl
    simp only [dispatchEvent, hm, hl]
    generalize callbacks.map (fun cb => cb ()) = rs
    induction rs with
    | nil => rfl
    | cons c cs ih => simpa using ih
  · intro hm
    simp [dispatchEvent, hm]
  · intro eventName cb
    rcases hl : lookupName eventName (t.listeners.getD []) with _ | arr <;>
      simp [addEventListener, hl]

/-- Witness for C10: registering one listener for `"a"` and dispatching a
`"b"` event throws; a fresh target with no listeners dispatches silently. -/
theorem dispatchEvent_partiality_witness :
    dispatchEvent (addEventListener ⟨none⟩ "a" (fun _ => none)) "b" =
        some (JsError.typeError "listeners is not iterable") ∧
      dispatchEvent (⟨none⟩ : EvTarget) "b" = none :=
  ⟨(dispatchEvent_partiality (addEventListener ⟨none⟩ "a" (fun _ => none))
      "b").1 [("a", [fun _ => none])] rfl rfl,
    (dispatchEvent_partiality (⟨none⟩ : EvTarget) "b").2.2.1 rfl⟩

end Librelay
